import Mathlib

/-!
# Verification of the ED-Scenario-Comparison scenario-calculation engine

Shallow embedding of `calculateScenario` from `src/utils/scenarioCalculation.ts`
(the engine transforming a baseline energy time series plus an added PV capacity
into a scenario time series and KPIs), together with proofs of the specified
properties.

JavaScript numbers are modelled as exact rationals (`ℚ`).  A JavaScript
numeric value that may be `NaN` (which arises in this code only from an
out-of-bounds array read, whose `undefined` result behaves like `NaN` in
arithmetic) is modelled as `Option ℚ`, with `none` standing for NaN/undefined.
`Math.round` is `⌊x + 1/2⌋`, which is Mathlib's `round` on `ℚ`.  The `throw`
of the source is modelled with `Except String`.
-/

/-- A JavaScript numeric value: `some q` is the finite number `q`, `none` is
NaN (or `undefined`, which behaves like NaN in every arithmetic position in
which the engine can produce it). -/
abbrev JSNum := Option ℚ

/-- JavaScript `+` on possibly-NaN values: NaN is absorbing. -/
def jsAdd : JSNum → JSNum → JSNum
  | some a, some b => some (a + b)
  | _, _ => none

/-- JavaScript `-` on possibly-NaN values: NaN is absorbing. -/
def jsSub : JSNum → JSNum → JSNum
  | some a, some b => some (a - b)
  | _, _ => none

/-- JavaScript `*` on possibly-NaN values: NaN is absorbing. -/
def jsMul : JSNum → JSNum → JSNum
  | some a, some b => some (a * b)
  | _, _ => none

/-- JavaScript `/` on possibly-NaN values: NaN is absorbing.  (A zero divisor
would give ±Infinity in JavaScript, not a rational; every division performed
by the engine is guarded by a strict-positivity test on the divisor, so that
case is unreachable here.) -/
def jsDiv : JSNum → JSNum → JSNum
  | some a, some b => some (a / b)
  | _, _ => none

/-- `Math.min` on possibly-NaN values: NaN is absorbing. -/
def jsMin : JSNum → JSNum → JSNum
  | some a, some b => some (min a b)
  | _, _ => none

/-- `Math.max` on possibly-NaN values: NaN is absorbing. -/
def jsMax : JSNum → JSNum → JSNum
  | some a, some b => some (max a b)
  | _, _ => none

/-- The JavaScript comparison `x > 0`: false when `x` is NaN/undefined. -/
def jsGtZero : JSNum → Bool
  | some a => decide (0 < a)
  | none => false

/-- `Math.max(...l)` over the (in the reachable cases nonempty) argument list.
(For an empty spread JavaScript returns `-Infinity`; the engine only evaluates
this max after finding a strictly positive element of the list, so the empty
case is unreachable and its value here is irrelevant.) -/
def listMax : List ℚ → ℚ
  | [] => 0
  | x :: xs => xs.foldl max x

/-- `Math.round(x * 10) / 10` (round to one decimal place), on `ℚ`. -/
def round1 (q : ℚ) : ℚ := ((round (q * 10) : ℤ) : ℚ) / 10

/-- `Math.round(x * 1000) / 1000` (round to three decimal places), on `ℚ`. -/
def round3 (q : ℚ) : ℚ := ((round (q * 1000) : ℤ) : ℚ) / 1000

/-- `Math.round(x * 10) / 10` lifted to possibly-NaN values
(`Math.round(NaN)` is NaN). -/
def jsRound10 : JSNum → JSNum
  | some a => some (round1 a)
  | none => none

/-- `Math.round(x * 1000) / 1000` lifted to possibly-NaN values. -/
def jsRound1000 : JSNum → JSNum
  | some a => some (round3 a)
  | none => none

/-- `Array.prototype.reduce((sum, val) => sum + val, 0)` on a possibly-NaN
array. -/
def jsSum (l : List JSNum) : JSNum := l.foldl jsAdd (some 0)

/-- The sum computed by `reduce((sum, val) => sum + val, 0)` on an ordinary
numeric array. -/
def sumL (l : List ℚ) : ℚ := l.foldl (· + ·) 0

/-- `Baseline` from `src/types`: the two parallel input arrays. -/
structure Baseline where
  consumption : List ℚ
  pv_generation : List ℚ
  deriving DecidableEq

/-- `Scenario` from `src/types`: the two output arrays built by the engine.
Entries are `JSNum` because a malformed (length-mismatched) baseline makes the
engine write NaN values. -/
structure Scenario where
  consumption : List JSNum
  pv_generation : List JSNum
  deriving DecidableEq

/-- `Kpis` from `src/types`. -/
structure Kpis where
  total_consumption_kwh : JSNum
  pv_coverage_pct : JSNum
  co2_savings_ton : JSNum
  deriving DecidableEq

/-- `ScenarioResult` from `src/types`. -/
structure ScenarioResult where
  scenario : Scenario
  kpis : Kpis
  deriving DecidableEq

/-- `CalculationOptions` from `src/types`: all three fields optional. -/
structure CalculationOptions where
  hours_per_day : Option ℚ := none
  self_consumption_share : Option ℚ := none
  co2_emission_factor : Option ℚ := none
  deriving DecidableEq

/-- A fully resolved `Required<CalculationOptions>`. -/
structure MergedOptions where
  hours_per_day : ℚ
  self_consumption_share : ℚ
  co2_emission_factor : ℚ
  deriving DecidableEq

/-- `DEFAULT_CALCULATION_OPTIONS` from `src/utils/scenarioCalculation.ts`. -/
def DEFAULT_CALCULATION_OPTIONS : MergedOptions :=
  { hours_per_day := 4
    self_consumption_share := 0.6
    co2_emission_factor := 0.4 }

/-- The spread `{ ...DEFAULT_CALCULATION_OPTIONS, ...options }`: each field
present in `options` overrides the default. -/
def mergeOptions (options : CalculationOptions) : MergedOptions :=
  { hours_per_day := options.hours_per_day.getD DEFAULT_CALCULATION_OPTIONS.hours_per_day
    self_consumption_share :=
      options.self_consumption_share.getD DEFAULT_CALCULATION_OPTIONS.self_consumption_share
    co2_emission_factor :=
      options.co2_emission_factor.getD DEFAULT_CALCULATION_OPTIONS.co2_emission_factor }

/-- The body of the per-timestamp loop of `calculateScenario`, at loop index
`i` with `baseConsumption = baseline.consumption[i]`.  Returns the pair
`(newConsumption, newPvGeneration)` pushed onto the scenario arrays.  The read
`baseline.pv_generation[i]` is an `Option` because the source performs no
bounds check (out of bounds yields `undefined`). -/
def jsRow (baseline : Baseline) (pvKw : ℚ) (opts : MergedOptions) (i : Nat)
    (baseConsumption : ℚ) : JSNum × JSNum :=
  let additionalPvPerHour := pvKw * opts.hours_per_day / 24
  let basePvGeneration : JSNum := baseline.pv_generation[i]?
  let newPvGeneration : JSNum :=
    if 0 < pvKw then
      if jsGtZero basePvGeneration then
        let maxBasePv := listMax baseline.pv_generation
        if 0 < maxBasePv then
          jsAdd basePvGeneration
            (jsMul (some additionalPvPerHour) (jsDiv basePvGeneration (some maxBasePv)))
        else basePvGeneration
      else some (additionalPvPerHour * 0.1)
    else basePvGeneration
  let additionalPv := jsSub newPvGeneration basePvGeneration
  let consumptionReduction :=
    jsMin (jsMul additionalPv (some opts.self_consumption_share))
      (some (baseConsumption * 0.8))
  let newConsumption :=
    jsMax (jsSub (some baseConsumption) consumptionReduction)
      (some (baseConsumption * 0.2))
  (newConsumption, newPvGeneration)

/-- The per-timestamp loop `for (let i = 0; i < baseline.consumption.length; i++)`
of `calculateScenario`, started at index `i` on the remaining consumption
entries `cs`. -/
def scenarioRows (baseline : Baseline) (pvKw : ℚ) (opts : MergedOptions) :
    Nat → List ℚ → List (JSNum × JSNum)
  | _, [] => []
  | i, c :: cs => jsRow baseline pvKw opts i c :: scenarioRows baseline pvKw opts (i + 1) cs

/-- `calculateScenario` from `src/utils/scenarioCalculation.ts`.  The `throw`
on negative capacity is modelled as `Except.error`. -/
def calculateScenario (baseline : Baseline) (pvKw : ℚ)
    (options : CalculationOptions := {}) : Except String ScenarioResult :=
  let opts := mergeOptions options
  if pvKw < 0 then Except.error "PV capacity cannot be negative"
  else
    let rows := scenarioRows baseline pvKw opts 0 baseline.consumption
    let scenario : Scenario :=
      { consumption := rows.map Prod.fst
        pv_generation := rows.map Prod.snd }
    let totalBaselineConsumption := sumL baseline.consumption
    let totalScenarioConsumption := jsSum scenario.consumption
    let totalPvGeneration := jsSum scenario.pv_generation
    let consumptionSavings := jsSub (some totalBaselineConsumption) totalScenarioConsumption
    let pvCoveragePct : JSNum :=
      if 0 < totalBaselineConsumption then
        jsMul (jsDiv totalPvGeneration (some totalBaselineConsumption)) (some 100)
      else some 0
    let co2SavingsTon :=
      jsDiv (jsMul consumptionSavings (some opts.co2_emission_factor)) (some 1000)
    Except.ok
      { scenario := scenario
        kpis :=
          { total_consumption_kwh := jsRound10 totalScenarioConsumption
            pv_coverage_pct := jsRound10 pvCoveragePct
            co2_savings_ton := jsRound1000 co2SavingsTon } }

/-- The mock baseline used by the test suite and by the spec's worked
examples. -/
def mockBaseline : Baseline :=
  { consumption := [120, 118, 115, 113, 112, 140, 160, 155]
    pv_generation := [0, 0, 0, 5, 15, 25, 20, 10] }

/-- Reference definition, following the spec's words, of the new PV generation
at index `i`: with `A = addedPvKw * H / 24` and `M` the maximum of
`baseline.pv_generation` over the whole series, the value is
`baseline.pv_generation[i]` when `addedPvKw = 0` (or when
`baseline.pv_generation[i] > 0` and `M = 0`, scaleFactor treated as 0);
`baseline.pv_generation[i] + A * (baseline.pv_generation[i] / M)` when
`addedPvKw > 0`, `baseline.pv_generation[i] > 0` and `M > 0`; and `A * 0.1`
when `addedPvKw > 0` and `baseline.pv_generation[i] = 0`. -/
def specNewPvGeneration (b : Baseline) (addedPvKw H : ℚ) (i : Nat) : ℚ :=
  let A := addedPvKw * H / 24
  let p := b.pv_generation.getD i 0
  let M := listMax b.pv_generation
  if addedPvKw = 0 then p
  else if 0 < p then (if M = 0 then p else p + A * (p / M)) else A * 0.1

/-- Reference definition, following the spec's words, of the new consumption
at index `i`:
`max(baseline.consumption[i] - min((newPvGeneration[i] - baseline.pv_generation[i]) * S, baseline.consumption[i] * 0.8), baseline.consumption[i] * 0.2)`. -/
def specNewConsumption (b : Baseline) (addedPvKw H S : ℚ) (i : Nat) : ℚ :=
  let c := b.consumption.getD i 0
  let p := b.pv_generation.getD i 0
  max (c - min ((specNewPvGeneration b addedPvKw H i - p) * S) (c * 0.8)) (c * 0.2)

/-- The value of `newPvGeneration` computed by the loop body of
`calculateScenario` when the read of `baseline.pv_generation[i]` is in bounds
and returns `p` (pure restriction of the `Option` layer of `jsRow`). -/
def pureNewPv (pvList : List ℚ) (pvKw H p : ℚ) : ℚ :=
  if 0 < pvKw then
    if 0 < p then
      if 0 < listMax pvList then p + pvKw * H / 24 * (p / listMax pvList) else p
    else pvKw * H / 24 * 0.1
  else p

/-- The value of `newConsumption` computed by the loop body of
`calculateScenario` when the read of `baseline.pv_generation[i]` is in bounds
and returns `p`. -/
def pureNewCons (pvList : List ℚ) (pvKw H S c p : ℚ) : ℚ :=
  max (c - min ((pureNewPv pvList pvKw H p - p) * S) (c * 0.8)) (c * 0.2)

/-- Pure form of the engine's loop on an in-bounds baseline: the list of
`(newConsumption, newPvGeneration)` pairs. -/
def pureRows (pvList : List ℚ) (pvKw H S : ℚ) : Nat → List ℚ → List (ℚ × ℚ)
  | _, [] => []
  | i, c :: cs =>
      (pureNewCons pvList pvKw H S c (pvList.getD i 0),
       pureNewPv pvList pvKw H (pvList.getD i 0)) :: pureRows pvList pvKw H S (i + 1) cs

/-- Pure form of the whole engine on a well-formed baseline (proved equal to
`calculateScenario` on equal-length baselines by `calculateScenario_ok`
below). -/
def pureResult (b : Baseline) (pvKw : ℚ) (m : MergedOptions) : ScenarioResult :=
  let rows := pureRows b.pv_generation pvKw m.hours_per_day m.self_consumption_share 0 b.consumption
  let totB := sumL b.consumption
  let totC := sumL (rows.map Prod.fst)
  let totP := sumL (rows.map Prod.snd)
  { scenario :=
      { consumption := (rows.map Prod.fst).map some
        pv_generation := (rows.map Prod.snd).map some }
    kpis :=
      { total_consumption_kwh := some (round1 totC)
        pv_coverage_pct := some (if 0 < totB then round1 (totP / totB * 100) else 0)
        co2_savings_ton := some (round3 ((totB - totC) * m.co2_emission_factor / 1000)) } }

/-- Ordering of possibly-NaN values used to state the invariants: it holds
only between two genuine numbers (a NaN entry satisfies no bound). -/
def optLe : Option ℚ → Option ℚ → Prop
  | some a, some b => a ≤ b
  | _, _ => False

instance : ∀ a b : Option ℚ, Decidable (optLe a b)
  | some a, some b => inferInstanceAs (Decidable (a ≤ b))
  | some _, none => isFalse (fun h => h)
  | none, some _ => isFalse (fun h => h)
  | none, none => isFalse (fun h => h)

@[simp] lemma optLe_some_some (a b : ℚ) : optLe (some a) (some b) ↔ a ≤ b := Iff.rfl

lemma le_foldl_max (l : List ℚ) : ∀ a : ℚ, a ≤ l.foldl max a := by
  induction l with
  | nil => intro a; exact le_refl a
  | cons x xs ih =>
      intro a
      calc a ≤ max a x := le_max_left a x
        _ ≤ xs.foldl max (max a x) := ih (max a x)

lemma mem_le_foldl_max (l : List ℚ) : ∀ (a x : ℚ), x ∈ l → x ≤ l.foldl max a := by
  induction l with
  | nil => intro a x hx; cases hx
  | cons y ys ih =>
      intro a x hx
      rcases List.mem_cons.mp hx with h | h
      · subst h
        calc x ≤ max a x := le_max_right a x
          _ ≤ ys.foldl max (max a x) := le_foldl_max ys (max a x)
      · exact ih (max a y) x h

/-- Every element of a list is bounded by `listMax`. -/
lemma le_listMax {l : List ℚ} {x : ℚ} (hx : x ∈ l) : x ≤ listMax l := by
  cases l with
  | nil => cases hx
  | cons y ys =>
      rcases List.mem_cons.mp hx with h | h
      · subst h; exact le_foldl_max ys x
      · exact mem_le_foldl_max ys y x h

/-- `listMax` of a list of non-negative values is non-negative. -/
lemma listMax_nonneg {l : List ℚ} (h : ∀ x ∈ l, 0 ≤ x) : 0 ≤ listMax l := by
  cases l with
  | nil => exact le_refl 0
  | cons y ys =>
      have h0 : 0 ≤ y := h y (List.mem_cons_self y ys)
      exact le_trans h0 (le_foldl_max ys y)

lemma foldl_add_shift (l : List ℚ) : ∀ a : ℚ, l.foldl (· + ·) a = a + l.foldl (· + ·) 0 := by
  induction l with
  | nil => intro a; simp
  | cons x xs ih =>
      intro a
      simp only [List.foldl_cons]
      rw [ih (a + x), ih (0 + x)]
      ring

lemma sumL_nil : sumL ([] : List ℚ) = 0 := rfl

lemma sumL_cons (x : ℚ) (l : List ℚ) : sumL (x :: l) = x + sumL l := by
  simp only [sumL, List.foldl_cons]
  rw [foldl_add_shift l (0 + x)]
  ring

lemma sumL_nonneg {l : List ℚ} (h : ∀ x ∈ l, 0 ≤ x) : 0 ≤ sumL l := by
  induction l with
  | nil => simp [sumL_nil]
  | cons x xs ih =>
      rw [sumL_cons]
      have hx : 0 ≤ x := h x (List.mem_cons_self x xs)
      have hxs : 0 ≤ sumL xs := ih (fun y hy => h y (List.mem_cons_of_mem x hy))
      linarith

/-- `reduce`-style summation of an all-number array has no NaN. -/
lemma jsSum_map_some (l : List ℚ) : jsSum (l.map some) = some (sumL l) := by
  have key : ∀ (l : List ℚ) (a : ℚ), (l.map some).foldl jsAdd (some a) = some (l.foldl (· + ·) a) := by
    intro l
    induction l with
    | nil => intro a; rfl
    | cons x xs ih => intro a; simpa [jsAdd] using ih (a + x)
  simpa [jsSum, sumL] using key l 0

lemma round1_zero : round1 0 = 0 := by
  simp [round1]

lemma getD_nonneg {l : List ℚ} (h : ∀ x ∈ l, 0 ≤ x) (i : Nat) : 0 ≤ l.getD i 0 := by
  rw [List.getD_eq_getElem?_getD]
  cases hl : l[i]? with
  | none => simp
  | some v =>
      have hv : v ∈ l := List.getElem?_mem hl
      simpa using h v hv

lemma getD_le_listMax {l : List ℚ} (i : Nat) (hi : i < l.length) : l.getD i 0 ≤ listMax l := by
  rw [List.getD_eq_getElem?_getD, List.getElem?_eq_getElem hi]
  exact le_listMax (List.getElem_mem hi)

lemma getElem?_eq_some_getD {l : List ℚ} {i : Nat} (hi : i < l.length) :
    l[i]? = some (l.getD i 0) := by
  rw [List.getD_eq_getElem?_getD, List.getElem?_eq_getElem hi]
  rfl

/-- The loop body agrees with its pure restriction whenever the
`baseline.pv_generation[i]` read is in bounds. -/
lemma jsRow_eq_pure (b : Baseline) (pvKw : ℚ) (m : MergedOptions) (i : Nat) (c p : ℚ)
    (hp : b.pv_generation[i]? = some p) :
    jsRow b pvKw m i c =
      (some (pureNewCons b.pv_generation pvKw m.hours_per_day m.self_consumption_share c p),
       some (pureNewPv b.pv_generation pvKw m.hours_per_day p)) := by
  unfold jsRow pureNewCons pureNewPv
  rw [hp]
  by_cases h1 : 0 < pvKw
  · by_cases h2 : 0 < p
    · have hg : jsGtZero (some p) = true := by simp [jsGtZero, h2]
      by_cases h3 : 0 < listMax b.pv_generation
      · simp [h1, h2, h3, hg, jsAdd, jsSub, jsMul, jsDiv, jsMin, jsMax]
      · simp [h1, h2, h3, hg, jsSub, jsMul, jsMin, jsMax]
    · have hg : jsGtZero (some p) = false := by simp [jsGtZero, h2]
      simp [h1, h2, hg, jsSub, jsMul, jsMin, jsMax]
  · simp [h1, jsSub, jsMul, jsMin, jsMax]

lemma scenarioRows_eq_pure (b : Baseline) (pvKw : ℚ) (m : MergedOptions) :
    ∀ (cs : List ℚ) (i : Nat), i + cs.length ≤ b.pv_generation.length →
      scenarioRows b pvKw m i cs =
        (pureRows b.pv_generation pvKw m.hours_per_day m.self_consumption_share i cs).map
          (fun r => (some r.1, some r.2))
  | [], _, _ => rfl
  | c :: cs, i, h => by
      have hi : i < b.pv_generation.length := by
        simp only [List.length_cons] at h
        omega
      have hrest : (i + 1) + cs.length ≤ b.pv_generation.length := by
        simp only [List.length_cons] at h
        omega
      simp only [scenarioRows, pureRows, List.map_cons,
        jsRow_eq_pure b pvKw m i c _ (getElem?_eq_some_getD hi),
        scenarioRows_eq_pure b pvKw m cs (i + 1) hrest]

lemma pureRows_length (pvList : List ℚ) (pvKw H S : ℚ) :
    ∀ (cs : List ℚ) (i : Nat), (pureRows pvList pvKw H S i cs).length = cs.length
  | [], _ => rfl
  | _ :: cs, i => by
      simp only [pureRows, List.length_cons, pureRows_length pvList pvKw H S cs (i + 1)]

lemma pureRows_getElem? (pvList : List ℚ) (pvKw H S : ℚ) :
    ∀ (cs : List ℚ) (i j : Nat),
      (pureRows pvList pvKw H S i cs)[j]? =
        (cs[j]?).map (fun c =>
          (pureNewCons pvList pvKw H S c (pvList.getD (i + j) 0),
           pureNewPv pvList pvKw H (pvList.getD (i + j) 0)))
  | [], _, _ => by simp [pureRows]
  | c :: cs, i, 0 => by simp [pureRows]
  | c :: cs, i, j + 1 => by
      have harith : i + 1 + j = i + (j + 1) := by omega
      simp only [pureRows, List.getElem?_cons_succ,
        pureRows_getElem? pvList pvKw H S cs (i + 1) j, harith]

/-- On a well-formed baseline and non-negative capacity, `calculateScenario`
returns exactly the pure result. -/
lemma calculateScenario_ok (b : Baseline) (pvKw : ℚ) (o : CalculationOptions)
    (hk : 0 ≤ pvKw) (hlen : b.consumption.length = b.pv_generation.length) :
    calculateScenario b pvKw o = Except.ok (pureResult b pvKw (mergeOptions o)) := by
  unfold calculateScenario pureResult
  rw [if_neg (not_lt.mpr hk)]
  rw [scenarioRows_eq_pure b pvKw (mergeOptions o) b.consumption 0 (by omega)]
  have hfst :
      ((pureRows b.pv_generation pvKw (mergeOptions o).hours_per_day
          (mergeOptions o).self_consumption_share 0 b.consumption).map
            (fun r => ((some r.1 : JSNum), (some r.2 : JSNum)))).map Prod.fst =
        ((pureRows b.pv_generation pvKw (mergeOptions o).hours_per_day
          (mergeOptions o).self_consumption_share 0 b.consumption).map Prod.fst).map some := by
    simp [List.map_map, Function.comp]
  have hsnd :
      ((pureRows b.pv_generation pvKw (mergeOptions o).hours_per_day
          (mergeOptions o).self_consumption_share 0 b.consumption).map
            (fun r => ((some r.1 : JSNum), (some r.2 : JSNum)))).map Prod.snd =
        ((pureRows b.pv_generation pvKw (mergeOptions o).hours_per_day
          (mergeOptions o).self_consumption_share 0 b.consumption).map Prod.snd).map some := by
    simp [List.map_map, Function.comp]
  by_cases htot : 0 < sumL b.consumption
  · simp only [hfst, hsnd, jsSum_map_some, htot, if_true, jsSub, jsMul, jsDiv, jsRound10,
      jsRound1000]
  · simp only [hfst, hsnd, jsSum_map_some, htot, if_false, jsSub, jsMul, jsDiv, jsRound10,
      jsRound1000, round1_zero]

lemma additionalPvPerHour_nonneg {pvKw H : ℚ} (hk : 0 ≤ pvKw) (hH : 0 ≤ H) :
    0 ≤ pvKw * H / 24 := by positivity

lemma pureNewPv_ge_self {pvList : List ℚ} {pvKw H p : ℚ}
    (hk : 0 ≤ pvKw) (hH : 0 ≤ H) (hp : 0 ≤ p) : p ≤ pureNewPv pvList pvKw H p := by
  have hA : 0 ≤ pvKw * H / 24 := additionalPvPerHour_nonneg hk hH
  unfold pureNewPv
  split_ifs with h1 h2 h3
  · have hM : 0 ≤ p / listMax pvList := div_nonneg hp (le_of_lt h3)
    nlinarith
  · exact le_refl p
  · have hp0 : p = 0 := le_antisymm (not_lt.mp h2) hp
    rw [hp0]
    positivity
  · exact le_refl p

lemma pureNewPv_nonneg {pvList : List ℚ} {pvKw H p : ℚ}
    (hk : 0 ≤ pvKw) (hH : 0 ≤ H) (hp : 0 ≤ p) : 0 ≤ pureNewPv pvList pvKw H p :=
  le_trans hp (pureNewPv_ge_self hk hH hp)

lemma pureNewPv_sub_le {pvList : List ℚ} {pvKw H p : ℚ}
    (hk : 0 ≤ pvKw) (hH : 0 ≤ H) (hp : 0 ≤ p) (hple : p ≤ listMax pvList) :
    pureNewPv pvList pvKw H p - p ≤ pvKw * H / 24 := by
  have hA : 0 ≤ pvKw * H / 24 := additionalPvPerHour_nonneg hk hH
  unfold pureNewPv
  split_ifs with h1 h2 h3
  · have hdiv : p / listMax pvList ≤ 1 := (div_le_one h3).mpr hple
    have := mul_le_of_le_one_right hA hdiv
    linarith
  · linarith
  · nlinarith
  · linarith

lemma pureNewPv_night {pvList : List ℚ} {pvKw H p : ℚ} (hp0 : p = 0) (hkpos : 0 < pvKw) :
    pureNewPv pvList pvKw H p = pvKw * H / 24 * 0.1 := by
  subst hp0
  unfold pureNewPv
  rw [if_pos hkpos, if_neg (lt_irrefl 0)]

lemma pureNewPv_at_zero {pvList : List ℚ} {H p : ℚ} : pureNewPv pvList 0 H p = p := by
  unfold pureNewPv
  rw [if_neg (lt_irrefl 0)]

lemma pureNewCons_ge_floor (pvList : List ℚ) (pvKw H S c p : ℚ) :
    c * 0.2 ≤ pureNewCons pvList pvKw H S c p :=
  le_max_right _ _

lemma pureNewCons_nonneg {pvList : List ℚ} {pvKw H S c p : ℚ} (hc : 0 ≤ c) :
    0 ≤ pureNewCons pvList pvKw H S c p :=
  le_trans (by positivity) (pureNewCons_ge_floor pvList pvKw H S c p)

lemma pureNewCons_le_self {pvList : List ℚ} {pvKw H S c p : ℚ}
    (hk : 0 ≤ pvKw) (hH : 0 ≤ H) (hp : 0 ≤ p) (hc : 0 ≤ c) (hS : 0 ≤ S) :
    pureNewCons pvList pvKw H S c p ≤ c := by
  have hadd : 0 ≤ pureNewPv pvList pvKw H p - p := by
    have hge : p ≤ pureNewPv pvList pvKw H p := pureNewPv_ge_self hk hH hp
    linarith
  have hred : 0 ≤ min ((pureNewPv pvList pvKw H p - p) * S) (c * 0.8) :=
    le_min (by positivity) (by positivity)
  unfold pureNewCons
  apply max_le
  · linarith
  · nlinarith

lemma pureNewCons_at_zero {pvList : List ℚ} {H S c p : ℚ} (hc : 0 ≤ c) :
    pureNewCons pvList 0 H S c p = c := by
  unfold pureNewCons
  rw [pureNewPv_at_zero, sub_self, zero_mul]
  rw [min_eq_left (by positivity)]
  rw [sub_zero]
  exact max_eq_left (by nlinarith)

lemma pureResult_scenario_consumption (b : Baseline) (pvKw : ℚ) (m : MergedOptions) :
    (pureResult b pvKw m).scenario.consumption =
      ((pureRows b.pv_generation pvKw m.hours_per_day m.self_consumption_share 0
        b.consumption).map Prod.fst).map some := rfl

lemma pureResult_scenario_pv (b : Baseline) (pvKw : ℚ) (m : MergedOptions) :
    (pureResult b pvKw m).scenario.pv_generation =
      ((pureRows b.pv_generation pvKw m.hours_per_day m.self_consumption_share 0
        b.consumption).map Prod.snd).map some := rfl

lemma pureResult_total (b : Baseline) (pvKw : ℚ) (m : MergedOptions) :
    (pureResult b pvKw m).kpis.total_consumption_kwh =
      some (round1 (sumL ((pureRows b.pv_generation pvKw m.hours_per_day
        m.self_consumption_share 0 b.consumption).map Prod.fst))) := rfl

lemma pureResult_coverage (b : Baseline) (pvKw : ℚ) (m : MergedOptions) :
    (pureResult b pvKw m).kpis.pv_coverage_pct =
      some (if 0 < sumL b.consumption then
        round1 (sumL ((pureRows b.pv_generation pvKw m.hours_per_day
          m.self_consumption_share 0 b.consumption).map Prod.snd) / sumL b.consumption * 100)
      else 0) := rfl

lemma pureResult_co2 (b : Baseline) (pvKw : ℚ) (m : MergedOptions) :
    (pureResult b pvKw m).kpis.co2_savings_ton =
      some (round3 ((sumL b.consumption - sumL ((pureRows b.pv_generation pvKw
        m.hours_per_day m.self_consumption_share 0 b.consumption).map Prod.fst)) *
        m.co2_emission_factor / 1000)) := rfl

/-- Per-index values of the pure result's scenario arrays. -/
lemma pureResult_entries (b : Baseline) (pvKw : ℚ) (m : MergedOptions) (i : Nat)
    (hi : i < b.consumption.length) :
    (pureResult b pvKw m).scenario.consumption.getD i none =
      some (pureNewCons b.pv_generation pvKw m.hours_per_day m.self_consumption_share
        (b.consumption.getD i 0) (b.pv_generation.getD i 0)) ∧
    (pureResult b pvKw m).scenario.pv_generation.getD i none =
      some (pureNewPv b.pv_generation pvKw m.hours_per_day (b.pv_generation.getD i 0)) := by
  have hc : b.consumption[i]? = some (b.consumption.getD i 0) := getElem?_eq_some_getD hi
  constructor
  · rw [pureResult_scenario_consumption, List.getD_eq_getElem?_getD, List.getElem?_map,
      List.getElem?_map, pureRows_getElem?, hc]
    simp
  · rw [pureResult_scenario_pv, List.getD_eq_getElem?_getD, List.getElem?_map,
      List.getElem?_map, pureRows_getElem?, hc]
    simp

lemma round1_nonneg {q : ℚ} (hq : 0 ≤ q) : 0 ≤ round1 q := by
  unfold round1
  have h : (0 : ℤ) ≤ round (q * 10) := by
    rw [round_eq]
    exact Int.floor_nonneg.mpr (by linarith)
  have h2 : (0 : ℚ) ≤ ((round (q * 10) : ℤ) : ℚ) := by exact_mod_cast h
  linarith

lemma round3_nonneg {q : ℚ} (hq : 0 ≤ q) : 0 ≤ round3 q := by
  unfold round3
  have h : (0 : ℤ) ≤ round (q * 1000) := by
    rw [round_eq]
    exact Int.floor_nonneg.mpr (by linarith)
  have h2 : (0 : ℚ) ≤ ((round (q * 1000) : ℤ) : ℚ) := by exact_mod_cast h
  linarith

lemma round3_zero : round3 0 = 0 := by
  simp [round3]

lemma sumL_pureRows_fst_nonneg {pvList : List ℚ} {pvKw H S : ℚ} :
    ∀ (cs : List ℚ) (i : Nat), (∀ x ∈ cs, 0 ≤ x) →
      0 ≤ sumL ((pureRows pvList pvKw H S i cs).map Prod.fst)
  | [], _, _ => le_refl 0
  | c :: cs, i, h => by
      rw [pureRows, List.map_cons, sumL_cons]
      have hc : 0 ≤ c := h c (List.mem_cons_self c cs)
      have hrest : 0 ≤ sumL ((pureRows pvList pvKw H S (i + 1) cs).map Prod.fst) :=
        sumL_pureRows_fst_nonneg cs (i + 1) (fun y hy => h y (List.mem_cons_of_mem c hy))
      have hhead : 0 ≤ pureNewCons pvList pvKw H S c (pvList.getD i 0) := pureNewCons_nonneg hc
      linarith

lemma sumL_pureRows_snd_nonneg {pvList : List ℚ} {pvKw H S : ℚ}
    (hk : 0 ≤ pvKw) (hH : 0 ≤ H) (hpvl : ∀ x ∈ pvList, 0 ≤ x) :
    ∀ (cs : List ℚ) (i : Nat), 0 ≤ sumL ((pureRows pvList pvKw H S i cs).map Prod.snd)
  | [], _ => le_refl 0
  | c :: cs, i => by
      rw [pureRows, List.map_cons, sumL_cons]
      have hrest : 0 ≤ sumL ((pureRows pvList pvKw H S (i + 1) cs).map Prod.snd) :=
        sumL_pureRows_snd_nonneg hk hH hpvl cs (i + 1)
      have hhead : 0 ≤ pureNewPv pvList pvKw H (pvList.getD i 0) :=
        pureNewPv_nonneg hk hH (getD_nonneg hpvl i)
      linarith

lemma sumL_pureRows_fst_le {pvList : List ℚ} {pvKw H S : ℚ}
    (hk : 0 ≤ pvKw) (hH : 0 ≤ H) (hS : 0 ≤ S) (hpvl : ∀ x ∈ pvList, 0 ≤ x) :
    ∀ (cs : List ℚ) (i : Nat), (∀ x ∈ cs, 0 ≤ x) →
      sumL ((pureRows pvList pvKw H S i cs).map Prod.fst) ≤ sumL cs
  | [], _, _ => le_refl 0
  | c :: cs, i, h => by
      rw [pureRows, List.map_cons, sumL_cons, sumL_cons]
      have hc : 0 ≤ c := h c (List.mem_cons_self c cs)
      have hrest : sumL ((pureRows pvList pvKw H S (i + 1) cs).map Prod.fst) ≤ sumL cs :=
        sumL_pureRows_fst_le hk hH hS hpvl cs (i + 1) (fun y hy => h y (List.mem_cons_of_mem c hy))
      have hhead : pureNewCons pvList pvKw H S c (pvList.getD i 0) ≤ c :=
        pureNewCons_le_self hk hH (getD_nonneg hpvl i) hc hS
      linarith

lemma pureRows_fst_at_zero {pvList : List ℚ} {H S : ℚ} :
    ∀ (cs : List ℚ) (i : Nat), (∀ x ∈ cs, 0 ≤ x) →
      (pureRows pvList 0 H S i cs).map Prod.fst = cs
  | [], _, _ => rfl
  | c :: cs, i, h => by
      rw [pureRows, List.map_cons]
      have hc : 0 ≤ c := h c (List.mem_cons_self c cs)
      rw [pureNewCons_at_zero hc,
        pureRows_fst_at_zero cs (i + 1) (fun y hy => h y (List.mem_cons_of_mem c hy))]

lemma pureRows_snd_at_zero {pvList : List ℚ} {H S : ℚ} (cs : List ℚ)
    (hlen : cs.length = pvList.length) :
    (pureRows pvList 0 H S 0 cs).map Prod.snd = pvList := by
  apply List.ext_getElem?
  intro j
  rw [List.getElem?_map, pureRows_getElem?]
  by_cases hj : j < cs.length
  · rw [getElem?_eq_some_getD hj, getElem?_eq_some_getD (by omega : j < pvList.length)]
    simp [pureNewPv_at_zero]
  · rw [List.getElem?_eq_none (by omega : cs.length ≤ j),
      List.getElem?_eq_none (by omega : pvList.length ≤ j)]
    rfl

/-- On a well-formed baseline with non-negative capacity, the returned result
is the pure result. -/
lemma result_eq_pure {b : Baseline} {pvKw : ℚ} {o : CalculationOptions} {r : ScenarioResult}
    (hk : 0 ≤ pvKw) (hlen : b.consumption.length = b.pv_generation.length)
    (hres : calculateScenario b pvKw o = Except.ok r) :
    r = pureResult b pvKw (mergeOptions o) := by
  have h := calculateScenario_ok b pvKw o hk hlen
  rw [hres] at h
  exact Except.ok.inj h

/-- The engine's per-index new PV generation agrees with the spec's reference
definition on non-negative baselines and non-negative capacity. -/
lemma pureNewPv_eq_spec (b : Baseline) (pvKw H : ℚ) (i : Nat)
    (hk : 0 ≤ pvKw) (hpv : ∀ x ∈ b.pv_generation, 0 ≤ x) :
    pureNewPv b.pv_generation pvKw H (b.pv_generation.getD i 0) =
      specNewPvGeneration b pvKw H i := by
  have hM : 0 ≤ listMax b.pv_generation := listMax_nonneg hpv
  simp only [pureNewPv, specNewPvGeneration]
  by_cases h0 : pvKw = 0
  · subst h0
    rw [if_pos rfl, if_neg (lt_irrefl 0)]
  · have hkpos : 0 < pvKw := lt_of_le_of_ne hk (Ne.symm h0)
    rw [if_neg h0, if_pos hkpos]
    by_cases hp : 0 < b.pv_generation.getD i 0
    · rw [if_pos hp, if_pos hp]
      by_cases hM0 : listMax b.pv_generation = 0
      · rw [if_pos hM0, if_neg (by rw [hM0]; exact lt_irrefl 0)]
      · have hMpos : 0 < listMax b.pv_generation := lt_of_le_of_ne hM (Ne.symm hM0)
        rw [if_neg hM0, if_pos hMpos]
    · rw [if_neg hp, if_neg hp]

/-- The engine's per-index new consumption agrees with the spec's reference
definition on non-negative baselines and non-negative capacity. -/
lemma pureNewCons_eq_spec (b : Baseline) (pvKw H S : ℚ) (i : Nat)
    (hk : 0 ≤ pvKw) (hpv : ∀ x ∈ b.pv_generation, 0 ≤ x) :
    pureNewCons b.pv_generation pvKw H S (b.consumption.getD i 0) (b.pv_generation.getD i 0) =
      specNewConsumption b pvKw H S i := by
  simp only [pureNewCons, specNewConsumption]
  rw [pureNewPv_eq_spec b pvKw H i hk hpv]

/-- One-interval baseline used to instantiate the general theorems. -/
def wBase : Baseline := { consumption := [2], pv_generation := [1] }

/-- One-interval baseline with zero baseline PV (night-time case). -/
def wNight : Baseline := { consumption := [1], pv_generation := [0] }

lemma wBase_c : wBase.consumption = [2] := rfl

lemma wBase_pv : wBase.pv_generation = [1] := rfl

lemma wNight_c : wNight.consumption = [1] := rfl

lemma wNight_pv : wNight.pv_generation = [0] := rfl

lemma mergeDefault_H : (mergeOptions {}).hours_per_day = 4 := rfl

lemma mergeDefault_S : (mergeOptions {}).self_consumption_share = 0.6 := rfl

lemma mergeDefault_F : (mergeOptions {}).co2_emission_factor = 0.4 := rfl

/-- C2: `calculateScenario` fails with the error
"PV capacity cannot be negative" exactly when `addedPvKw < 0` (the failure
carries no result, and the function is pure, so no partial computation or
side effect occurs); for every `addedPvKw ≥ 0` on a valid baseline it returns
a `ScenarioResult`. -/
theorem negative_capacity_rejected (b : Baseline) (pvKw : ℚ) (o : CalculationOptions)
    (hlen : b.consumption.length = b.pv_generation.length)
    (hc : ∀ x ∈ b.consumption, 0 ≤ x) (hpv : ∀ x ∈ b.pv_generation, 0 ≤ x) :
    (pvKw < 0 ↔ calculateScenario b pvKw o = Except.error "PV capacity cannot be negative") ∧
    (0 ≤ pvKw → (calculateScenario b pvKw o).isOk = true) := by
  constructor
  · constructor
    · intro h
      unfold calculateScenario
      rw [if_pos h]
    · intro h
      by_contra hneg
      rw [calculateScenario_ok b pvKw o (not_lt.mp hneg) hlen] at h
      exact Except.noConfusion h
  · intro hk
    rw [calculateScenario_ok b pvKw o hk hlen]
    rfl

theorem negative_capacity_rejected_witness :
    (calculateScenario wBase (-5) {} = Except.error "PV capacity cannot be negative") ∧
    (calculateScenario wBase 10 {}).isOk = true :=
  ⟨((negative_capacity_rejected wBase (-5) {} rfl
      (by rw [wBase_c]; intro x hx; simp at hx; subst hx; norm_num)
      (by rw [wBase_pv]; intro x hx; simp at hx; subst hx; norm_num)).1).mp (by norm_num),
   (negative_capacity_rejected wBase 10 {} rfl
      (by rw [wBase_c]; intro x hx; simp at hx; subst hx; norm_num)
      (by rw [wBase_pv]; intro x hx; simp at hx; subst hx; norm_num)).2 (by norm_num)⟩

/-- C6: on a valid baseline, with `addedPvKw ≥ 0`, positive `hours_per_day`
and a self-consumption share in `[0,1]`, every scenario consumption entry is
at most the corresponding baseline consumption entry. -/
theorem consumption_nonincrease (b : Baseline) (pvKw : ℚ) (o : CalculationOptions)
    (r : ScenarioResult)
    (hlen : b.consumption.length = b.pv_generation.length)
    (hc : ∀ x ∈ b.consumption, 0 ≤ x) (hpv : ∀ x ∈ b.pv_generation, 0 ≤ x)
    (hk : 0 ≤ pvKw)
    (hH : 0 < (mergeOptions o).hours_per_day)
    (hS0 : 0 ≤ (mergeOptions o).self_consumption_share)
    (hS1 : (mergeOptions o).self_consumption_share ≤ 1)
    (hres : calculateScenario b pvKw o = Except.ok r)
    (i : Nat) (hi : i < b.consumption.length) :
    optLe (r.scenario.consumption.getD i none) (some (b.consumption.getD i 0)) := by
  have hr := result_eq_pure hk hlen hres
  subst hr
  rw [(pureResult_entries b pvKw (mergeOptions o) i hi).1, optLe_some_some]
  exact pureNewCons_le_self hk (le_of_lt hH) (getD_nonneg hpv i) (getD_nonneg hc i) hS0

theorem consumption_nonincrease_witness :
    optLe ((pureResult wBase 10 (mergeOptions {})).scenario.consumption.getD 0 none)
      (some (wBase.consumption.getD 0 0)) :=
  consumption_nonincrease wBase 10 {} (pureResult wBase 10 (mergeOptions {})) rfl
    (by rw [wBase_c]; intro x hx; simp at hx; subst hx; norm_num)
    (by rw [wBase_pv]; intro x hx; simp at hx; subst hx; norm_num)
    (by norm_num)
    (by rw [mergeDefault_H]; norm_num)
    (by rw [mergeDefault_S]; norm_num)
    (by rw [mergeDefault_S]; norm_num)
    (calculateScenario_ok wBase 10 {} (by norm_num) rfl)
    0 (by rw [wBase_c]; norm_num)

/-- C7: on a valid baseline with `addedPvKw ≥ 0`, every scenario consumption
entry is at least 20% of the corresponding baseline consumption entry. -/
theorem consumption_floor (b : Baseline) (pvKw : ℚ) (o : CalculationOptions)
    (r : ScenarioResult)
    (hlen : b.consumption.length = b.pv_generation.length)
    (hc : ∀ x ∈ b.consumption, 0 ≤ x) (hpv : ∀ x ∈ b.pv_generation, 0 ≤ x)
    (hk : 0 ≤ pvKw)
    (hres : calculateScenario b pvKw o = Except.ok r)
    (i : Nat) (hi : i < b.consumption.length) :
    optLe (some (b.consumption.getD i 0 * 0.2)) (r.scenario.consumption.getD i none) := by
  have hr := result_eq_pure hk hlen hres
  subst hr
  rw [(pureResult_entries b pvKw (mergeOptions o) i hi).1, optLe_some_some]
  exact pureNewCons_ge_floor b.pv_generation pvKw (mergeOptions o).hours_per_day
    (mergeOptions o).self_consumption_share (b.consumption.getD i 0) (b.pv_generation.getD i 0)

theorem consumption_floor_witness :
    optLe (some (wBase.consumption.getD 0 0 * 0.2))
      ((pureResult wBase 1000 (mergeOptions {})).scenario.consumption.getD 0 none) :=
  consumption_floor wBase 1000 {} (pureResult wBase 1000 (mergeOptions {})) rfl
    (by rw [wBase_c]; intro x hx; simp at hx; subst hx; norm_num)
    (by rw [wBase_pv]; intro x hx; simp at hx; subst hx; norm_num)
    (by norm_num)
    (calculateScenario_ok wBase 1000 {} (by norm_num) rfl)
    0 (by rw [wBase_c]; norm_num)

/-- C9: on a valid baseline with `addedPvKw ≥ 0` and positive `hours_per_day`,
no interval's PV generation grows by more than
`addedPvKw * hours_per_day / 24`, and at intervals with zero baseline
generation (when `addedPvKw > 0`) the increment is exactly one tenth of that
bound. -/
theorem pv_increment_bound (b : Baseline) (pvKw : ℚ) (o : CalculationOptions)
    (r : ScenarioResult)
    (hlen : b.consumption.length = b.pv_generation.length)
    (hc : ∀ x ∈ b.consumption, 0 ≤ x) (hpv : ∀ x ∈ b.pv_generation, 0 ≤ x)
    (hk : 0 ≤ pvKw)
    (hH : 0 < (mergeOptions o).hours_per_day)
    (hres : calculateScenario b pvKw o = Except.ok r)
    (i : Nat) (hi : i < b.consumption.length) :
    optLe (jsSub (r.scenario.pv_generation.getD i none) (some (b.pv_generation.getD i 0)))
      (some (pvKw * (mergeOptions o).hours_per_day / 24)) ∧
    (b.pv_generation.getD i 0 = 0 → 0 < pvKw →
      jsSub (r.scenario.pv_generation.getD i none) (some (b.pv_generation.getD i 0)) =
        some (pvKw * (mergeOptions o).hours_per_day / 24 * 0.1)) := by
  have hr := result_eq_pure hk hlen hres
  subst hr
  rw [(pureResult_entries b pvKw (mergeOptions o) i hi).2]
  have hple : b.pv_generation.getD i 0 ≤ listMax b.pv_generation :=
    getD_le_listMax i (hlen ▸ hi)
  constructor
  · simp only [jsSub, optLe_some_some]
    exact pureNewPv_sub_le hk (le_of_lt hH) (getD_nonneg hpv i) hple
  · intro hp0 hkpos
    simp only [jsSub]
    rw [pureNewPv_night hp0 hkpos, hp0, sub_zero]

theorem pv_increment_bound_witness :
    optLe (jsSub ((pureResult wNight 1 (mergeOptions {})).scenario.pv_generation.getD 0 none)
        (some (wNight.pv_generation.getD 0 0)))
      (some (1 * (mergeOptions {}).hours_per_day / 24)) ∧
    (wNight.pv_generation.getD 0 0 = 0 → (0 : ℚ) < 1 →
      jsSub ((pureResult wNight 1 (mergeOptions {})).scenario.pv_generation.getD 0 none)
          (some (wNight.pv_generation.getD 0 0)) =
        some (1 * (mergeOptions {}).hours_per_day / 24 * 0.1)) :=
  pv_increment_bound wNight 1 {} (pureResult wNight 1 (mergeOptions {})) rfl
    (by rw [wNight_c]; intro x hx; simp at hx; subst hx; norm_num)
    (by rw [wNight_pv]; intro x hx; simp at hx; subst hx; norm_num)
    (by norm_num)
    (by rw [mergeDefault_H]; norm_num)
    (calculateScenario_ok wNight 1 {} (by norm_num) rfl)
    0 (by rw [wNight_c]; norm_num)

/-- C10: on a valid baseline, with `addedPvKw ≥ 0`, positive `hours_per_day`,
self-consumption share in `[0,1]` and non-negative emission factor, every
returned value (both scenario arrays and all three KPIs) is a non-negative
number. -/
theorem outputs_nonneg (b : Baseline) (pvKw : ℚ) (o : CalculationOptions)
    (r : ScenarioResult)
    (hlen : b.consumption.length = b.pv_generation.length)
    (hc : ∀ x ∈ b.consumption, 0 ≤ x) (hpv : ∀ x ∈ b.pv_generation, 0 ≤ x)
    (hk : 0 ≤ pvKw)
    (hH : 0 < (mergeOptions o).hours_per_day)
    (hS0 : 0 ≤ (mergeOptions o).self_consumption_share)
    (hS1 : (mergeOptions o).self_consumption_share ≤ 1)
    (hF : 0 ≤ (mergeOptions o).co2_emission_factor)
    (hres : calculateScenario b pvKw o = Except.ok r) :
    (∀ i, i < b.consumption.length →
      optLe (some 0) (r.scenario.consumption.getD i none) ∧
      optLe (some 0) (r.scenario.pv_generation.getD i none)) ∧
    optLe (some 0) r.kpis.total_consumption_kwh ∧
    optLe (some 0) r.kpis.pv_coverage_pct ∧
    optLe (some 0) r.kpis.co2_savings_ton := by
  have hr := result_eq_pure hk hlen hres
  subst hr
  refine ⟨fun i hi => ?_, ?_, ?_, ?_⟩
  · obtain ⟨h1, h2⟩ := pureResult_entries b pvKw (mergeOptions o) i hi
    rw [h1, h2, optLe_some_some, optLe_some_some]
    exact ⟨pureNewCons_nonneg (getD_nonneg hc i),
      pureNewPv_nonneg hk (le_of_lt hH) (getD_nonneg hpv i)⟩
  · rw [pureResult_total, optLe_some_some]
    exact round1_nonneg (sumL_pureRows_fst_nonneg b.consumption 0 hc)
  · rw [pureResult_coverage, optLe_some_some]
    split_ifs with h
    · apply round1_nonneg
      have htP : 0 ≤ sumL ((pureRows b.pv_generation pvKw (mergeOptions o).hours_per_day
          (mergeOptions o).self_consumption_share 0 b.consumption).map Prod.snd) :=
        sumL_pureRows_snd_nonneg hk (le_of_lt hH) hpv b.consumption 0
      have hdiv := div_nonneg htP (le_of_lt h)
      linarith
    · exact le_refl 0
  · rw [pureResult_co2, optLe_some_some]
    apply round3_nonneg
    have hle : sumL ((pureRows b.pv_generation pvKw (mergeOptions o).hours_per_day
        (mergeOptions o).self_consumption_share 0 b.consumption).map Prod.fst) ≤
        sumL b.consumption :=
      sumL_pureRows_fst_le hk (le_of_lt hH) hS0 hpv b.consumption 0 hc
    have hsave : 0 ≤ sumL b.consumption - sumL ((pureRows b.pv_generation pvKw
        (mergeOptions o).hours_per_day (mergeOptions o).self_consumption_share 0
        b.consumption).map Prod.fst) := by linarith
    have := mul_nonneg hsave hF
    linarith

theorem outputs_nonneg_witness :
    (optLe (some 0) ((pureResult wNight 2 (mergeOptions {})).scenario.consumption.getD 0 none) ∧
     optLe (some 0) ((pureResult wNight 2 (mergeOptions {})).scenario.pv_generation.getD 0 none)) ∧
    optLe (some 0) (pureResult wNight 2 (mergeOptions {})).kpis.total_consumption_kwh ∧
    optLe (some 0) (pureResult wNight 2 (mergeOptions {})).kpis.pv_coverage_pct ∧
    optLe (some 0) (pureResult wNight 2 (mergeOptions {})).kpis.co2_savings_ton := by
  have h := outputs_nonneg wNight 2 {} (pureResult wNight 2 (mergeOptions {})) rfl
    (by rw [wNight_c]; intro x hx; simp at hx; subst hx; norm_num)
    (by rw [wNight_pv]; intro x hx; simp at hx; subst hx; norm_num)
    (by norm_num)
    (by rw [mergeDefault_H]; norm_num)
    (by rw [mergeDefault_S]; norm_num)
    (by rw [mergeDefault_S]; norm_num)
    (by rw [mergeDefault_F]; norm_num)
    (calculateScenario_ok wNight 2 {} (by norm_num) rfl)
  exact ⟨h.1 0 (by rw [wNight_c]; norm_num), h.2.1, h.2.2.1, h.2.2.2⟩

/-- C3: identity at zero capacity — on a valid baseline,
`calculateScenario b 0` returns a scenario whose arrays are value-equal to
the baseline arrays and a `co2_savings_ton` of exactly 0. -/
theorem zero_capacity_identity (b : Baseline) (r : ScenarioResult)
    (hlen : b.consumption.length = b.pv_generation.length)
    (hc : ∀ x ∈ b.consumption, 0 ≤ x) (hpv : ∀ x ∈ b.pv_generation, 0 ≤ x)
    (hres : calculateScenario b 0 {} = Except.ok r) :
    r.scenario.consumption = b.consumption.map some ∧
    r.scenario.pv_generation = b.pv_generation.map some ∧
    r.kpis.co2_savings_ton = some 0 := by
  have hr := result_eq_pure (le_refl 0) hlen hres
  subst hr
  refine ⟨?_, ?_, ?_⟩
  · rw [pureResult_scenario_consumption, pureRows_fst_at_zero b.consumption 0 hc]
  · rw [pureResult_scenario_pv, pureRows_snd_at_zero b.consumption hlen]
  · rw [pureResult_co2, pureRows_fst_at_zero b.consumption 0 hc, sub_self, zero_mul,
      zero_div, round3_zero]

theorem zero_capacity_identity_witness :
    (pureResult wBase 0 (mergeOptions {})).scenario.consumption = wBase.consumption.map some ∧
    (pureResult wBase 0 (mergeOptions {})).scenario.pv_generation =
      wBase.pv_generation.map some ∧
    (pureResult wBase 0 (mergeOptions {})).kpis.co2_savings_ton = some 0 :=
  zero_capacity_identity wBase (pureResult wBase 0 (mergeOptions {})) rfl
    (by rw [wBase_c]; intro x hx; simp at hx; subst hx; norm_num)
    (by rw [wBase_pv]; intro x hx; simp at hx; subst hx; norm_num)
    (calculateScenario_ok wBase 0 {} (le_refl 0) rfl)

/-- C5: KPI consistency — on a valid baseline with `addedPvKw ≥ 0`,
`total_consumption_kwh` is the 1-decimal rounding of the sum of the returned
scenario consumption, `pv_coverage_pct` is the 1-decimal rounding of
`(Σ scenario.pv_generation / Σ baseline.consumption) * 100` when the
denominator is positive and exactly 0 when it is 0, `co2_savings_ton` is the
3-decimal rounding of
`(Σ baseline.consumption - Σ scenario.consumption) * co2_emission_factor / 1000`,
and none of the three KPIs is NaN. -/
theorem kpi_consistency (b : Baseline) (pvKw : ℚ) (o : CalculationOptions)
    (r : ScenarioResult)
    (hlen : b.consumption.length = b.pv_generation.length)
    (hc : ∀ x ∈ b.consumption, 0 ≤ x) (hpv : ∀ x ∈ b.pv_generation, 0 ≤ x)
    (hk : 0 ≤ pvKw)
    (hres : calculateScenario b pvKw o = Except.ok r) :
    r.kpis.total_consumption_kwh = jsRound10 (jsSum r.scenario.consumption) ∧
    (0 < sumL b.consumption →
      r.kpis.pv_coverage_pct =
        jsRound10 (jsMul (jsDiv (jsSum r.scenario.pv_generation) (some (sumL b.consumption)))
          (some 100))) ∧
    (sumL b.consumption = 0 → r.kpis.pv_coverage_pct = some 0) ∧
    r.kpis.co2_savings_ton =
      jsRound1000 (jsDiv (jsMul (jsSub (some (sumL b.consumption))
        (jsSum r.scenario.consumption)) (some (mergeOptions o).co2_emission_factor))
        (some 1000)) ∧
    r.kpis.total_consumption_kwh.isSome = true ∧
    r.kpis.pv_coverage_pct.isSome = true ∧
    r.kpis.co2_savings_ton.isSome = true := by
  have hr := result_eq_pure hk hlen hres
  subst hr
  refine ⟨?_, ?_, ?_, ?_, ?_, ?_, ?_⟩
  · rw [pureResult_total, pureResult_scenario_consumption, jsSum_map_some]
    rfl
  · intro h
    rw [pureResult_coverage, pureResult_scenario_pv, jsSum_map_some, if_pos h]
    rfl
  · intro h0
    rw [pureResult_coverage, if_neg (by rw [h0]; exact lt_irrefl 0)]
  · rw [pureResult_co2, pureResult_scenario_consumption, jsSum_map_some]
    rfl
  · rw [pureResult_total]
    rfl
  · rw [pureResult_coverage]
    rfl
  · rw [pureResult_co2]
    rfl

theorem kpi_consistency_witness :
    (pureResult wBase 20 (mergeOptions {})).kpis.total_consumption_kwh =
      jsRound10 (jsSum (pureResult wBase 20 (mergeOptions {})).scenario.consumption) ∧
    (0 < sumL wBase.consumption →
      (pureResult wBase 20 (mergeOptions {})).kpis.pv_coverage_pct =
        jsRound10 (jsMul (jsDiv (jsSum (pureResult wBase 20
            (mergeOptions {})).scenario.pv_generation) (some (sumL wBase.consumption)))
          (some 100))) ∧
    (sumL wBase.consumption = 0 →
      (pureResult wBase 20 (mergeOptions {})).kpis.pv_coverage_pct = some 0) ∧
    (pureResult wBase 20 (mergeOptions {})).kpis.co2_savings_ton =
      jsRound1000 (jsDiv (jsMul (jsSub (some (sumL wBase.consumption))
        (jsSum (pureResult wBase 20 (mergeOptions {})).scenario.consumption))
        (some (mergeOptions {}).co2_emission_factor)) (some 1000)) ∧
    (pureResult wBase 20 (mergeOptions {})).kpis.total_consumption_kwh.isSome = true ∧
    (pureResult wBase 20 (mergeOptions {})).kpis.pv_coverage_pct.isSome = true ∧
    (pureResult wBase 20 (mergeOptions {})).kpis.co2_savings_ton.isSome = true :=
  kpi_consistency wBase 20 {} (pureResult wBase 20 (mergeOptions {})) rfl
    (by rw [wBase_c]; intro x hx; simp at hx; subst hx; norm_num)
    (by rw [wBase_pv]; intro x hx; simp at hx; subst hx; norm_num)
    (by norm_num)
    (calculateScenario_ok wBase 20 {} (by norm_num) rfl)

/-- C1: on a valid baseline, with `addedPvKw ≥ 0` and merged options
satisfying `hours_per_day > 0`, `self_consumption_share ∈ [0,1]` and
`co2_emission_factor > 0`, every entry of the returned scenario equals the
spec's reference definition (`specNewPvGeneration` / `specNewConsumption`). -/
theorem calculateScenario_matches_spec (b : Baseline) (pvKw : ℚ) (o : CalculationOptions)
    (r : ScenarioResult)
    (hlen : b.consumption.length = b.pv_generation.length)
    (hc : ∀ x ∈ b.consumption, 0 ≤ x) (hpv : ∀ x ∈ b.pv_generation, 0 ≤ x)
    (hk : 0 ≤ pvKw)
    (hH : 0 < (mergeOptions o).hours_per_day)
    (hS0 : 0 ≤ (mergeOptions o).self_consumption_share)
    (hS1 : (mergeOptions o).self_consumption_share ≤ 1)
    (hF : 0 < (mergeOptions o).co2_emission_factor)
    (hres : calculateScenario b pvKw o = Except.ok r)
    (i : Nat) (hi : i < b.consumption.length) :
    r.scenario.pv_generation.getD i none =
      some (specNewPvGeneration b pvKw (mergeOptions o).hours_per_day i) ∧
    r.scenario.consumption.getD i none =
      some (specNewConsumption b pvKw (mergeOptions o).hours_per_day
        (mergeOptions o).self_consumption_share i) := by
  have hr := result_eq_pure hk hlen hres
  subst hr
  obtain ⟨h1, h2⟩ := pureResult_entries b pvKw (mergeOptions o) i hi
  constructor
  · rw [h2, pureNewPv_eq_spec b pvKw (mergeOptions o).hours_per_day i hk hpv]
  · rw [h1, pureNewCons_eq_spec b pvKw (mergeOptions o).hours_per_day
      (mergeOptions o).self_consumption_share i hk hpv]

theorem calculateScenario_matches_spec_witness :
    (pureResult wBase 1 (mergeOptions {})).scenario.pv_generation.getD 0 none =
      some (specNewPvGeneration wBase 1 (mergeOptions {}).hours_per_day 0) ∧
    (pureResult wBase 1 (mergeOptions {})).scenario.consumption.getD 0 none =
      some (specNewConsumption wBase 1 (mergeOptions {}).hours_per_day
        (mergeOptions {}).self_consumption_share 0) :=
  calculateScenario_matches_spec wBase 1 {} (pureResult wBase 1 (mergeOptions {})) rfl
    (by rw [wBase_c]; intro x hx; simp at hx; subst hx; norm_num)
    (by rw [wBase_pv]; intro x hx; simp at hx; subst hx; norm_num)
    (by norm_num)
    (by rw [mergeDefault_H]; norm_num)
    (by rw [mergeDefault_S]; norm_num)
    (by rw [mergeDefault_S]; norm_num)
    (by rw [mergeDefault_F]; norm_num)
    (calculateScenario_ok wBase 1 {} (by norm_num) rfl)
    0 (by rw [wBase_c]; norm_num)

lemma mockC : mockBaseline.consumption = [120, 118, 115, 113, 112, 140, 160, 155] := rfl

lemma mockPv : mockBaseline.pv_generation = [0, 0, 0, 5, 15, 25, 20, 10] := rfl

lemma mockMax : listMax mockBaseline.pv_generation = 25 := by
  rw [mockPv]
  norm_num [listMax, max_def]

lemma mockPv_g0 : mockBaseline.pv_generation[0]? = some 0 := rfl
lemma mockPv_g1 : mockBaseline.pv_generation[1]? = some 0 := rfl
lemma mockPv_g2 : mockBaseline.pv_generation[2]? = some 0 := rfl
lemma mockPv_g3 : mockBaseline.pv_generation[3]? = some 5 := rfl
lemma mockPv_g4 : mockBaseline.pv_generation[4]? = some 15 := rfl
lemma mockPv_g5 : mockBaseline.pv_generation[5]? = some 25 := rfl
lemma mockPv_g6 : mockBaseline.pv_generation[6]? = some 20 := rfl
lemma mockPv_g7 : mockBaseline.pv_generation[7]? = some 10 := rfl

lemma mock1000_consumption :
    (pureResult mockBaseline 1000 (mergeOptions {})).scenario.consumption =
      [some 110, some 108, some 105, some 93, some 52, some 40, some 80, some 115] := by
  rw [pureResult_scenario_consumption, mergeDefault_H, mergeDefault_S, mockC]
  norm_num [pureRows, pureNewCons, pureNewPv, mockMax, mockPv_g0, mockPv_g1, mockPv_g2,
    mockPv_g3, mockPv_g4, mockPv_g5, mockPv_g6, mockPv_g7, min_def, max_def]

/-- C4 counterexample: with the test-suite baseline and `addedPvKw = 1000`,
the scenario consumption array is NOT `baseline.consumption * 0.2`
element-wise (for instance entry 0 is 110, not 24): the claimed saturation of
the 20% floor does not occur at this capacity. -/
theorem extreme_capacity_floor_counterexample :
    (calculateScenario mockBaseline 1000 {}).toOption.map (fun r => r.scenario.consumption) ≠
      some (mockBaseline.consumption.map (fun c => some (c * 0.2))) := by
  rw [calculateScenario_ok mockBaseline 1000 {} (by norm_num) rfl]
  rw [show (Except.ok (pureResult mockBaseline 1000 (mergeOptions {})) :
      Except String ScenarioResult).toOption =
    some (pureResult mockBaseline 1000 (mergeOptions {})) from rfl]
  rw [Option.map_some', mock1000_consumption, mockC]
  intro h
  have h0 := List.head_eq_of_cons_eq (Option.some.inj h)
  rw [Option.some.injEq] at h0
  norm_num at h0

/-- C4 amended: with the test-suite baseline and `addedPvKw = 1000` the
returned consumption is `[110, 108, 105, 93, 52, 40, 80, 115]` — each entry
respects the 20% floor but sits strictly above it, because the reduction is
capped by `additionalPv * self_consumption_share` before the 80% cap binds. -/
theorem extreme_capacity_floor_amended :
    (calculateScenario mockBaseline 1000 {}).toOption.map (fun r => r.scenario.consumption) =
      some [some 110, some 108, some 105, some 93, some 52, some 40, some 80, some 115] := by
  rw [calculateScenario_ok mockBaseline 1000 {} (by norm_num) rfl]
  rw [show (Except.ok (pureResult mockBaseline 1000 (mergeOptions {})) :
      Except String ScenarioResult).toOption =
    some (pureResult mockBaseline 1000 (mergeOptions {})) from rfl]
  rw [Option.map_some', mock1000_consumption]

/-- C8 counterexample: a baseline whose `pv_generation` is shorter than its
`consumption` does NOT make `calculateScenario` fail — the call returns a
result (the only error test in the source is `pvKw < 0`). -/
theorem mismatched_lengths_counterexample :
    (calculateScenario { consumption := [10, 20], pv_generation := [5] } 1 {}).isOk = true := by
  norm_num [calculateScenario]
  rfl

/-- C8 amended: `calculateScenario` performs no length validation and never
throws on mismatched arrays.  It loops over `consumption.length`: when
`pv_generation` is shorter, the missing reads are `undefined` and NaN
propagates into the affected consumption entries (modelled as `none`) while
the call still returns a result; when `pv_generation` is longer, the output
is truncated to `consumption.length`, though the extra entries still feed the
series-wide `Math.max` and hence the scale factor — here the single output
entry is `10 - min((1/6)*(5/7)*0.6, 8) = 139/14`, computed with
`maxBasePv = 7` (the surplus entry), not `5`. -/
theorem mismatched_lengths_amended :
    (calculateScenario { consumption := [10, 20], pv_generation := [5] } 1 {}).toOption.map
        (fun r => r.scenario.consumption) = some [some (99/10), none] ∧
    (calculateScenario { consumption := [10], pv_generation := [5, 7] } 1 {}).toOption.map
        (fun r => r.scenario.consumption) = some [some (139/14)] := by
  constructor
  · norm_num [calculateScenario, scenarioRows, jsRow, jsGtZero, listMax, jsAdd, jsSub, jsMul,
      jsDiv, jsMin, jsMax, mergeDefault_H, mergeDefault_S, Except.toOption, min_def, max_def]
  · norm_num [calculateScenario, scenarioRows, jsRow, jsGtZero, listMax, jsAdd, jsSub, jsMul,
      jsDiv, jsMin, jsMax, mergeDefault_H, mergeDefault_S, Except.toOption, min_def, max_def]
